import Mathlib

/-
Verification of the MAVLink telemetry adapter (src/main/telemetry/mavlink.c):
the outbound stream rate scheduler, the mission-transfer protocol state
machine, the inbound frame decoder and the telemetry orchestrator.

The external MAVLink codec, the serial transport and the navigation
subsystem's waypoint storage are collaborators outside this file's source;
they are modelled as oracles/parameters (see the `Env` structure and the
doc comments marked "Modelled from the spec").
-/

namespace MavlinkTelemetry

/-- Scheduler cycle rate in Hz (`TELEMETRY_MAVLINK_MAXRATE` in the source). -/
def TELEMETRY_MAVLINK_MAXRATE : Nat := 50

/-- Minimum inter-send interval in microseconds (`TELEMETRY_MAVLINK_DELAY`). -/
def TELEMETRY_MAVLINK_DELAY : Nat := 1000 * 1000 / TELEMETRY_MAVLINK_MAXRATE

/-- Local system id (`static uint8_t mavSystemId = 1` in the source). -/
def mavSystemId : Nat := 1

/-- Modelled from the spec: MAVLink command id for a plain waypoint
(`MAV_CMD_NAV_WAYPOINT`), defined in the external MAVLink header. -/
def MAV_CMD_NAV_WAYPOINT : Nat := 16

/-- Modelled from the spec: MAVLink command id for return-to-launch
(`MAV_CMD_NAV_RETURN_TO_LAUNCH`), defined in the external MAVLink header. -/
def MAV_CMD_NAV_RETURN_TO_LAUNCH : Nat := 20

/-- Modelled from the spec: MAVLink coordinate frame id for the global
relative-altitude frame (`MAV_FRAME_GLOBAL_RELATIVE_ALT`). -/
def MAV_FRAME_GLOBAL_RELATIVE_ALT : Nat := 3

/-- Modelled from the spec: MAVLink coordinate frame id for the mission
frame (`MAV_FRAME_MISSION`). -/
def MAV_FRAME_MISSION : Nat := 2

/-- Modelled from the spec: waypoint action code for a plain waypoint
(`NAV_WP_ACTION_WAYPOINT`), defined in the external navigation header. -/
def NAV_WP_ACTION_WAYPOINT : Nat := 1

/-- Modelled from the spec: waypoint action code for return-to-home
(`NAV_WP_ACTION_RTH`), defined in the external navigation header. -/
def NAV_WP_ACTION_RTH : Nat := 4

/-- Modelled from the spec: the end-of-list flag value (`NAV_WP_FLAG_LAST`),
defined in the external navigation header. Only its distinctness from 0
matters to the protocol logic in this file. -/
def NAV_WP_FLAG_LAST : Nat := 165

/-- Outcome codes of a mission ack (`MAV_MISSION_RESULT` in the external
MAVLink header), restricted to the codes this source file sends. -/
inductive MavMissionResult where
  | accepted
  | missionError
  | unsupported
  | unsupportedFrame
  | noSpace
  | invalid
  | invalidSequence
  deriving DecidableEq

/-- A stored navigation waypoint (`navWaypoint_t`). Latitude/longitude are
1e7-scaled integer degrees, altitude is centimeters. -/
structure NavWaypoint where
  action : Nat
  lat : Int
  lon : Int
  alt : Int
  p1 : Int
  p2 : Int
  p3 : Int
  flag : Nat
  deriving DecidableEq

/-- Decoded fields of `mavlink_mission_clear_all_t` used by the source. -/
structure MissionClearAllMsg where
  target_system : Nat
  deriving DecidableEq

/-- Decoded fields of `mavlink_mission_count_t` used by the source.
`count` is a uint16 field. -/
structure MissionCountMsg where
  target_system : Nat
  count : Nat
  deriving DecidableEq

/-- Decoded fields of `mavlink_mission_item_t` used by the source. The
float payload `x`, `y`, `z` is modelled as opaque integer-encoded values;
the float-to-storage conversions `(int32_t)(msg.x * 1e7f)` etc. are kept
abstract as `Env.convLat`/`convLon`/`convAlt` applied to these encodings
(no claim inspects the converted numeric values). -/
structure MissionItemMsg where
  target_system : Nat
  seq : Nat
  frame : Nat
  command : Nat
  autocontinue : Nat
  x : Int
  y : Int
  z : Int
  deriving DecidableEq

/-- Decoded fields of `mavlink_mission_request_list_t` used by the source. -/
structure MissionRequestListMsg where
  target_system : Nat
  deriving DecidableEq

/-- Decoded fields of `mavlink_mission_request_t` used by the source. -/
structure MissionRequestMsg where
  target_system : Nat
  seq : Nat
  deriving DecidableEq

/-- An outbound reply sent by the mission protocol handlers (acks, item
requests, count replies and item replies), abstracting the packed wire
messages. -/
inductive OutMsg where
  | ack (result : MavMissionResult)
  | missionRequest (seq : Int)
  | missionCount (count : Int)
  | missionItem (seq : Nat) (frame : Nat) (command : Nat) (x : Int) (y : Int) (z : Int)
  deriving DecidableEq

/-- Mutable state of the mission transfer machinery: the transfer cursor
(`incomingMissionWpCount`, `incomingMissionWpSequence`, both C `int`s) and
the navigation-owned waypoint storage. Modelled from the spec: the mission
list is owned by the navigation subsystem and reached only through
get/set/count/validate/reset operations; it is represented here as a map
from the 1-based waypoint number used by `setWaypoint` to the stored
waypoint, empty entries being `none`. -/
structure MavState where
  wpCount : Int
  wpSequence : Int
  mission : Int → Option NavWaypoint

/-- The initial zero state: counters zero-initialized, empty mission list. -/
def initialState : MavState :=
  { wpCount := 0, wpSequence := 0, mission := fun _ => none }

/-- External collaborators of the source file, kept abstract: the
configured waypoint capacity (`NAV_MAX_WAYPOINTS`, an external navigation
header constant), the navigation subsystem's whole-list validation and
count/get accessors, the float unit conversions of the MAVLink payload,
and the configured stream rates. -/
structure Env where
  navMaxWaypoints : Int
  isWaypointListValid : (Int → Option NavWaypoint) → Bool
  convLat : Int → Int
  convLon : Int → Int
  convAlt : Int → Int
  convBackLat : Int → Int
  convBackLon : Int → Int
  convBackAlt : Int → Int
  getWaypointCount : (Int → Option NavWaypoint) → Int
  getWaypoint : (Int → Option NavWaypoint) → Int → NavWaypoint
  mavRates : Fin 6 → Nat

/-- The result of one incoming-message handler call: whether the message
was handled (the C functions' bool return), the state afterwards, and the
replies sent. -/
structure HandleResult where
  handled : Bool
  state : MavState
  sent : List OutMsg

/-- Pointwise update of the mission storage: `setWaypoint(i, &wp)`.
Modelled from the spec: "store waypoint" through the navigation set
operation at the given 1-based waypoint number. -/
def missionSet (m : Int → Option NavWaypoint) (i : Int) (wp : NavWaypoint) :
    Int → Option NavWaypoint :=
  fun j => if j = i then some wp else m j

/-- The waypoint record built by `handleIncoming_MISSION_ITEM` before the
`setWaypoint` call: action from the command, converted coordinates, zero
parameters, and the end-of-list flag if this is the last expected item. -/
def mkStoredWp (env : Env) (m : MissionItemMsg) (isLast : Bool) : NavWaypoint :=
  { action := if m.command = MAV_CMD_NAV_RETURN_TO_LAUNCH then NAV_WP_ACTION_RTH
              else NAV_WP_ACTION_WAYPOINT
    lat := env.convLat m.x
    lon := env.convLon m.y
    alt := env.convAlt m.z
    p1 := 0
    p2 := 0
    p3 := 0
    flag := if isLast then NAV_WP_FLAG_LAST else 0 }

/-- Embedding of `handleIncoming_MISSION_CLEAR_ALL`: if addressed to this
system, reset the waypoint list and ack ACCEPTED; otherwise not handled.
The transfer counters are not touched. -/
def handleIncoming_MISSION_CLEAR_ALL (msg : MissionClearAllMsg) (s : MavState) :
    HandleResult :=
  if msg.target_system = mavSystemId then
    { handled := true
      state := { s with mission := fun _ => none }
      sent := [OutMsg.ack MavMissionResult.accepted] }
  else
    { handled := false, state := s, sent := [] }

/-- Embedding of `handleIncoming_MISSION_COUNT`: if addressed to this
system, either start a transfer session (count within capacity: record the
count, reset the sequence, request item 0) or reject with ERROR (armed) or
NO_SPACE (disarmed). -/
def handleIncoming_MISSION_COUNT (env : Env) (armed : Bool) (msg : MissionCountMsg)
    (s : MavState) : HandleResult :=
  if msg.target_system = mavSystemId then
    if (msg.count : Int) ≤ env.navMaxWaypoints then
      { handled := true
        state := { s with wpCount := (msg.count : Int), wpSequence := 0 }
        sent := [OutMsg.missionRequest 0] }
    else if armed then
      { handled := true, state := s, sent := [OutMsg.ack MavMissionResult.missionError] }
    else
      { handled := true, state := s, sent := [OutMsg.ack MavMissionResult.noSpace] }
  else
    { handled := false, state := s, sent := [] }

/-- Embedding of `handleIncoming_MISSION_ITEM`: reject while armed (ERROR),
reject unsupported command/autocontinue (UNSUPPORTED), reject unsupported
frame (UNSUPPORTED_FRAME); on the expected sequence number increment the
cursor, store the converted waypoint at the incremented 1-based position
(flagged end-of-list when no items remain), then either request the next
item or validate the whole list and ack ACCEPTED/INVALID; on a wrong
sequence number ack INVALID_SEQUENCE leaving all state unchanged. -/
def handleIncoming_MISSION_ITEM (env : Env) (armed : Bool) (msg : MissionItemMsg)
    (s : MavState) : HandleResult :=
  if msg.target_system = mavSystemId then
    if armed then
      { handled := true, state := s, sent := [OutMsg.ack MavMissionResult.missionError] }
    else if msg.autocontinue = 0 ∨
        (msg.command ≠ MAV_CMD_NAV_WAYPOINT ∧ msg.command ≠ MAV_CMD_NAV_RETURN_TO_LAUNCH) then
      { handled := true, state := s, sent := [OutMsg.ack MavMissionResult.unsupported] }
    else if msg.frame ≠ MAV_FRAME_GLOBAL_RELATIVE_ALT ∧
        ¬(msg.frame = MAV_FRAME_MISSION ∧ msg.command = MAV_CMD_NAV_RETURN_TO_LAUNCH) then
      { handled := true, state := s, sent := [OutMsg.ack MavMissionResult.unsupportedFrame] }
    else if (msg.seq : Int) = s.wpSequence then
      let seqNext : Int := s.wpSequence + 1
      let wp : NavWaypoint := mkStoredWp env msg (decide (s.wpCount ≤ seqNext))
      let mission' := missionSet s.mission seqNext wp
      let s' : MavState := { wpCount := s.wpCount, wpSequence := seqNext, mission := mission' }
      if s.wpCount ≤ seqNext then
        if env.isWaypointListValid mission' then
          { handled := true, state := s', sent := [OutMsg.ack MavMissionResult.accepted] }
        else
          { handled := true, state := s', sent := [OutMsg.ack MavMissionResult.invalid] }
      else
        { handled := true, state := s', sent := [OutMsg.missionRequest seqNext] }
    else
      { handled := true, state := s, sent := [OutMsg.ack MavMissionResult.invalidSequence] }
  else
    { handled := false, state := s, sent := [] }

/-- Embedding of `handleIncoming_MISSION_REQUEST_LIST`: if addressed to
this system, reply with the current list length. State is unchanged. -/
def handleIncoming_MISSION_REQUEST_LIST (env : Env) (msg : MissionRequestListMsg)
    (s : MavState) : HandleResult :=
  if msg.target_system = mavSystemId then
    { handled := true, state := s
      sent := [OutMsg.missionCount (env.getWaypointCount s.mission)] }
  else
    { handled := false, state := s, sent := [] }

/-- Embedding of `handleIncoming_MISSION_REQUEST`: if addressed to this
system and the requested sequence is below the list length, reply with
that waypoint (read at 1-based position seq+1, units converted back,
frame/command chosen by whether the stored action is RTH); otherwise ack
INVALID_SEQUENCE. State is unchanged. -/
def handleIncoming_MISSION_REQUEST (env : Env) (msg : MissionRequestMsg)
    (s : MavState) : HandleResult :=
  if msg.target_system = mavSystemId then
    if (msg.seq : Int) < env.getWaypointCount s.mission then
      let wp := env.getWaypoint s.mission ((msg.seq : Int) + 1)
      { handled := true, state := s
        sent := [OutMsg.missionItem msg.seq
          (if wp.action = NAV_WP_ACTION_RTH then MAV_FRAME_MISSION
           else MAV_FRAME_GLOBAL_RELATIVE_ALT)
          (if wp.action = NAV_WP_ACTION_RTH then MAV_CMD_NAV_RETURN_TO_LAUNCH
           else MAV_CMD_NAV_WAYPOINT)
          (env.convBackLat wp.lat) (env.convBackLon wp.lon) (env.convBackAlt wp.alt)] }
    else
      { handled := true, state := s, sent := [OutMsg.ack MavMissionResult.invalidSequence] }
  else
    { handled := false, state := s, sent := [] }

/-- An inbound frame as produced by the external byte parser, dispatched
on by message id in `processMAVLinkIncomingTelemetry`. `other` stands for
any message id without a case in the switch. -/
inductive RecvMsg where
  | heartbeat
  | missionClearAll (m : MissionClearAllMsg)
  | missionCount (m : MissionCountMsg)
  | missionItem (m : MissionItemMsg)
  | missionRequestList (m : MissionRequestListMsg)
  | missionRequest (m : MissionRequestMsg)
  | other (msgid : Nat)
  deriving DecidableEq

/-- Result of one call of the inbound decoder: the C bool return, the
state afterwards, the replies sent, the number of bytes whose parse
completed a frame (`MAVLINK_FRAMING_OK` results consumed), and the number
of frames that reached a loop-terminating switch case (everything except
heartbeat). -/
structure DecodeResult where
  handled : Bool
  state : MavState
  sent : List OutMsg
  framesDecoded : Nat
  dispatched : Nat

/-- Embedding of `processMAVLinkIncomingTelemetry`. The transport bytes
and the external stateful byte parser are abstracted into a list of parse
results, one per available byte: `none` when `mavlink_parse_char` did not
complete a frame on that byte, `some msg` when it returned
`MAVLINK_FRAMING_OK` with that decoded message. A heartbeat frame only
breaks the switch, so the read loop continues; every other completed frame
returns from the function. -/
def processMAVLinkIncomingTelemetry (env : Env) (armed : Bool) :
    List (Option RecvMsg) → MavState → DecodeResult
  | [], s => { handled := false, state := s, sent := [], framesDecoded := 0, dispatched := 0 }
  | none :: rest, s => processMAVLinkIncomingTelemetry env armed rest s
  | some RecvMsg.heartbeat :: rest, s =>
      let r := processMAVLinkIncomingTelemetry env armed rest s
      { r with framesDecoded := r.framesDecoded + 1 }
  | some (RecvMsg.missionClearAll m) :: _, s =>
      let h := handleIncoming_MISSION_CLEAR_ALL m s
      { handled := h.handled, state := h.state, sent := h.sent, framesDecoded := 1, dispatched := 1 }
  | some (RecvMsg.missionCount m) :: _, s =>
      let h := handleIncoming_MISSION_COUNT env armed m s
      { handled := h.handled, state := h.state, sent := h.sent, framesDecoded := 1, dispatched := 1 }
  | some (RecvMsg.missionItem m) :: _, s =>
      let h := handleIncoming_MISSION_ITEM env armed m s
      { handled := h.handled, state := h.state, sent := h.sent, framesDecoded := 1, dispatched := 1 }
  | some (RecvMsg.missionRequestList m) :: _, s =>
      let h := handleIncoming_MISSION_REQUEST_LIST env m s
      { handled := h.handled, state := h.state, sent := h.sent, framesDecoded := 1, dispatched := 1 }
  | some (RecvMsg.missionRequest m) :: _, s =>
      let h := handleIncoming_MISSION_REQUEST env m s
      { handled := h.handled, state := h.state, sent := h.sent, framesDecoded := 1, dispatched := 1 }
  | some (RecvMsg.other _) :: _, s =>
      { handled := false, state := s, sent := [], framesDecoded := 1, dispatched := 1 }

/-- Embedding of `mavlinkStreamTrigger` for one stream: given the
configured rate and the stream's current tick counter, decide whether the
stream triggers now and compute the next counter value. A zero rate never
triggers; a zero counter triggers and reloads the counter to
`TELEMETRY_MAVLINK_MAXRATE / rate` with the rate clamped to the cycle
frequency; otherwise the counter decrements. -/
def mavlinkStreamTrigger (rate : Nat) (tick : Nat) : Bool × Nat :=
  if rate = 0 then
    (false, tick)
  else if tick = 0 then
    let r := if rate > TELEMETRY_MAVLINK_MAXRATE then TELEMETRY_MAVLINK_MAXRATE else rate
    (true, TELEMETRY_MAVLINK_MAXRATE / r)
  else
    (false, tick - 1)

/-- Number of triggers of one stream over `n` scheduler calls starting
from the given tick counter. -/
def streamTriggerCount (rate : Nat) : Nat → Nat → Nat
  | 0, _ => 0
  | n + 1, t =>
      let r := mavlinkStreamTrigger rate t
      (if r.1 then 1 else 0) + streamTriggerCount rate n r.2

/-- Embedding of `processMAVLinkTelemetry`: run the rate scheduler for all
six streams in order, collecting which streams fired (each fired stream
dispatches its message set, whose flight-state contents are outside the
claims). -/
def processMAVLinkTelemetry (rates : Fin 6 → Nat) (ticks : Fin 6 → Nat) :
    (Fin 6 → Nat) × List (Fin 6) :=
  (List.finRange 6).foldl
    (fun acc i =>
      let r := mavlinkStreamTrigger (rates i) (acc.1 i)
      (Function.update acc.1 i r.2, if r.1 then acc.2 ++ [i] else acc.2))
    (ticks, [])

/-- Orchestrator-level state: the mission machinery, the per-stream tick
counters, the `incomingRequestServed` static flag and the
`lastMavlinkMessage` timestamp (a uint32 microsecond clock). -/
structure OrchState where
  machine : MavState
  mavTicks : Fin 6 → Nat
  incomingRequestServed : Bool
  lastMavlinkMessage : Nat

/-- Elapsed-time computation `currentTimeUs - lastMavlinkMessage` on the
wrapping 32-bit microsecond clock. -/
def timeDelta (now last : Nat) : Nat :=
  (now + 2 ^ 32 - last % 2 ^ 32) % 2 ^ 32

/-- Result of one orchestrator cycle: the state afterwards, whether the
scheduled outbound batch ran, whether the inbound decoder handled a
message, the mission replies sent, and the outbound streams that fired. -/
structure CycleResult where
  st : OrchState
  outboundRan : Bool
  handledIncoming : Bool
  sent : List OutMsg
  firedStreams : List (Fin 6)

/-- Embedding of `handleMAVLinkTelemetry`: no-op unless the telemetry link
is enabled and the port is set; otherwise drain the inbound decoder,
remember whether it handled a message, and if the minimum inter-send
interval elapsed run the scheduled batch only when no inbound message was
served, stamping the time and clearing the served flag. -/
def handleMAVLinkTelemetry (env : Env) (enabled portSet armed : Bool) (now : Nat)
    (stream : List (Option RecvMsg)) (os : OrchState) : CycleResult :=
  if ¬enabled ∨ ¬portSet then
    { st := os, outboundRan := false, handledIncoming := false, sent := [], firedStreams := [] }
  else
    let d := processMAVLinkIncomingTelemetry env armed stream os.machine
    let served := if d.handled then true else os.incomingRequestServed
    if TELEMETRY_MAVLINK_DELAY ≤ timeDelta now os.lastMavlinkMessage then
      if ¬served then
        let sched := processMAVLinkTelemetry env.mavRates os.mavTicks
        { st := { machine := d.state, mavTicks := sched.1,
                  incomingRequestServed := false, lastMavlinkMessage := now }
          outboundRan := true, handledIncoming := d.handled, sent := d.sent
          firedStreams := sched.2 }
      else
        { st := { machine := d.state, mavTicks := os.mavTicks,
                  incomingRequestServed := false, lastMavlinkMessage := now }
          outboundRan := false, handledIncoming := d.handled, sent := d.sent
          firedStreams := [] }
    else
      { st := { machine := d.state, mavTicks := os.mavTicks,
                incomingRequestServed := served, lastMavlinkMessage := os.lastMavlinkMessage }
        outboundRan := false, handledIncoming := d.handled, sent := d.sent
        firedStreams := [] }

/-- A concrete instantiation of the external collaborators, used for
evaluating the model on concrete inputs: capacity 15, a validation oracle
that accepts everything, identity unit conversions, and zeroed stream
rates. -/
def envDefault : Env :=
  { navMaxWaypoints := 15
    isWaypointListValid := fun _ => true
    convLat := fun x => x
    convLon := fun x => x
    convAlt := fun x => x
    convBackLat := fun x => x
    convBackLon := fun x => x
    convBackAlt := fun x => x
    getWaypointCount := fun _ => 0
    getWaypoint := fun _ _ => { action := 0, lat := 0, lon := 0, alt := 0,
                                p1 := 0, p2 := 0, p3 := 0, flag := 0 }
    mavRates := fun _ => 0 }

/-- One dispatched inbound mission-protocol message together with the
arming status read when it is handled; `missionStep` gives the resulting
state. Heartbeat and unrecognized ids leave the state unchanged. -/
def missionStep (env : Env) (armed : Bool) (m : RecvMsg) (s : MavState) : MavState :=
  match m with
  | RecvMsg.heartbeat => s
  | RecvMsg.missionClearAll msg => (handleIncoming_MISSION_CLEAR_ALL msg s).state
  | RecvMsg.missionCount msg => (handleIncoming_MISSION_COUNT env armed msg s).state
  | RecvMsg.missionItem msg => (handleIncoming_MISSION_ITEM env armed msg s).state
  | RecvMsg.missionRequestList msg => (handleIncoming_MISSION_REQUEST_LIST env msg s).state
  | RecvMsg.missionRequest msg => (handleIncoming_MISSION_REQUEST env msg s).state
  | RecvMsg.other _ => s

/-- State reached after processing a sequence of inbound mission-protocol
messages, each paired with the arming status in effect when it arrives. -/
def runMessages (env : Env) (inputs : List (Bool × RecvMsg)) (s : MavState) : MavState :=
  inputs.foldl (fun st inp => missionStep env inp.1 inp.2 st) s

/-- Process a list of mission item uploads in order, collecting the state
after all of them and the replies sent for each item. -/
def runItems (env : Env) (armed : Bool) : List MissionItemMsg → MavState →
    MavState × List (List OutMsg)
  | [], s => (s, [])
  | m :: rest, s =>
      let r := handleIncoming_MISSION_ITEM env armed m s
      let q := runItems env armed rest r.state
      (q.1, r.sent :: q.2)

/-- The item messages with indices `k`, `k+1`, ..., `k+n-1` drawn from the
item family `mk`. -/
def itemsFrom (mk : Nat → MissionItemMsg) (k n : Nat) : List MissionItemMsg :=
  (List.range n).map (fun t => mk (k + t))

/-- The support check of `handleIncoming_MISSION_ITEM` in positive form:
autocontinue nonzero and a command the source accepts. -/
def commandSupported (m : MissionItemMsg) : Prop :=
  m.autocontinue ≠ 0 ∧ (m.command = MAV_CMD_NAV_WAYPOINT ∨ m.command = MAV_CMD_NAV_RETURN_TO_LAUNCH)

/-- The frame check of `handleIncoming_MISSION_ITEM` in positive form: the
global relative-altitude frame, or the mission frame on an RTL command. -/
def frameSupported (m : MissionItemMsg) : Prop :=
  m.frame = MAV_FRAME_GLOBAL_RELATIVE_ALT ∨
    (m.frame = MAV_FRAME_MISSION ∧ m.command = MAV_CMD_NAV_RETURN_TO_LAUNCH)

/-- The frame-validity rule as the claim words it (this definition follows
the spec's words, not the source, for comparison with the source's check):
a WAYPOINT command requires the global relative-altitude frame and an RTL
command requires the mission frame; any other pairing is invalid. -/
def claimedFrameInvalid (m : MissionItemMsg) : Prop :=
  ¬((m.command = MAV_CMD_NAV_WAYPOINT ∧ m.frame = MAV_FRAME_GLOBAL_RELATIVE_ALT) ∨
    (m.command = MAV_CMD_NAV_RETURN_TO_LAUNCH ∧ m.frame = MAV_FRAME_MISSION))

/-- An item message fit for slot `i` of an upload: addressed to this
system, carrying sequence number `i`, and passing the support and frame
checks. -/
def ValidUploadItem (m : MissionItemMsg) (i : Nat) : Prop :=
  m.target_system = mavSystemId ∧ m.seq = i ∧ commandSupported m ∧ frameSupported m

/-- The mission storage contents after the first `k` items of the family
`mk` have been stored by an upload expecting `N` items in total: 1-based
positions 1..k hold the converted items, the one at position `N` (when
reached) flagged end-of-list. -/
def missionUpTo (env : Env) (mk : Nat → MissionItemMsg) (N k : Nat) :
    Int → Option NavWaypoint :=
  fun j =>
    if 1 ≤ j ∧ j ≤ (k : Int) then
      some (mkStoredWp env (mk (j - 1).toNat) (decide ((N : Int) ≤ j)))
    else none

/-- The replies an in-order upload produces for its remaining items: with
`n` items left starting at index `k`, each non-final item is answered by a
request for the next sequence number and the final one by the validation
ack over the finished mission list. -/
def expectedItemOuts (env : Env) (finalMission : Int → Option NavWaypoint) :
    Nat → Nat → List (List OutMsg)
  | _, 0 => []
  | k, n + 1 =>
      (if n = 0 then
        [OutMsg.ack (if env.isWaypointListValid finalMission then MavMissionResult.accepted
                     else MavMissionResult.invalid)]
      else
        [OutMsg.missionRequest ((k + 1 : Nat) : Int)]) ::
      expectedItemOuts env finalMission (k + 1) n

set_option maxRecDepth 8000

/-- A zero configured rate never triggers, from any counter value. -/
theorem streamTriggerCount_zero_rate (n t : Nat) : streamTriggerCount 0 n t = 0 := by
  induction n generalizing t with
  | zero => rfl
  | succ m ih => simp [streamTriggerCount, mavlinkStreamTrigger, ih]

/-- With a nonzero rate, a zeroed counter fires and reloads to
`maxrate / min rate maxrate` (the rate clamped to the cycle frequency). -/
theorem mavlinkStreamTrigger_fire (rate : Nat) (h : rate ≠ 0) :
    mavlinkStreamTrigger rate 0 =
      (true, TELEMETRY_MAVLINK_MAXRATE / min rate TELEMETRY_MAVLINK_MAXRATE) := by
  rcases le_or_lt rate TELEMETRY_MAVLINK_MAXRATE with hle | hlt
  · simp [mavlinkStreamTrigger, h, not_lt.mpr hle, min_eq_left hle]
  · simp [mavlinkStreamTrigger, h, hlt, min_eq_right hlt.le]

/-- Starting from counter value `t`, the first `t` calls only count down:
the trigger tally equals the tally of the remaining calls from a zeroed
counter. -/
theorem streamTriggerCount_shift (rate : Nat) (h : rate ≠ 0) (t : Nat) : ∀ n : Nat,
    streamTriggerCount rate n t =
      if t < n then streamTriggerCount rate (n - t) 0 else 0 := by
  induction t with
  | zero =>
      intro n
      cases n <;> simp [streamTriggerCount]
  | succ t ih =>
      intro n
      cases n with
      | zero => simp [streamTriggerCount]
      | succ m =>
          have hdec : mavlinkStreamTrigger rate (t + 1) = (false, t) := by
            simp [mavlinkStreamTrigger, h]
          simp [streamTriggerCount, hdec, ih m, Nat.succ_lt_succ_iff, Nat.succ_sub_succ]

/-- Exact trigger tally of a stream with nonzero rate over `n` scheduler
calls from a zeroed counter: one trigger every `K + 1` calls where
`K = maxrate / min rate maxrate` is the reload value, so the tally is
`(n + K) / (K + 1)`. -/
theorem streamTriggerCount_formula (rate : Nat) (h : rate ≠ 0) (n : Nat) :
    streamTriggerCount rate n 0 =
      (n + TELEMETRY_MAVLINK_MAXRATE / min rate TELEMETRY_MAVLINK_MAXRATE) /
        (TELEMETRY_MAVLINK_MAXRATE / min rate TELEMETRY_MAVLINK_MAXRATE + 1) := by
  set K := TELEMETRY_MAVLINK_MAXRATE / min rate TELEMETRY_MAVLINK_MAXRATE with hK
  induction n using Nat.strong_induction_on with
  | _ n ih =>
    cases n with
    | zero =>
        show streamTriggerCount rate 0 0 = (0 + K) / (K + 1)
        rw [Nat.zero_add, Nat.div_eq_of_lt (Nat.lt_succ_self K)]
        rfl
    | succ m =>
        have hstep : streamTriggerCount rate (m + 1) 0 = 1 + streamTriggerCount rate m K := by
          simp [streamTriggerCount, mavlinkStreamTrigger_fire rate h, ← hK]
        rw [hstep, streamTriggerCount_shift rate h K m]
        have harr : m + 1 + K = m + (K + 1) := by omega
        have hdiv : (m + (K + 1)) / (K + 1) = m / (K + 1) + 1 :=
          Nat.add_div_right m (Nat.succ_pos K)
        by_cases hKm : K < m
        · rw [if_pos hKm, ih (m - K) (Nat.lt_succ_of_le (Nat.sub_le m K))]
          rw [Nat.sub_add_cancel hKm.le, harr, hdiv]
          omega
        · rw [if_neg hKm, harr, hdiv]
          have h3 : m / (K + 1) = 0 := Nat.div_eq_of_lt (by omega)
          omega

/-- C7 counterexample: the claim asserts that every configured rate
`0 < r ≤ max_rate` converges to `r` triggers per second within ±1. For
rate 50 at the 50 Hz cycle the scheduler reloads the counter to 1 and so
fires only every second call: one second (50 calls) from a fresh counter
yields 25 triggers and ten seconds yield 250, far below the claimed
`50 ± 1` per second. -/
theorem c7_rate_counterexample :
    streamTriggerCount 50 (50 * 1) 0 = 25 ∧
    ¬(50 - 1 ≤ streamTriggerCount 50 (50 * 1) 0) ∧
    streamTriggerCount 50 (50 * 10) 0 = 250 ∧
    ¬((50 - 1) * 10 ≤ streamTriggerCount 50 (50 * 10) 0) := by
  refine ⟨by decide, by decide, by decide, by decide⟩

/-- C7 (amended): a stream with configured rate 0 never triggers; a stream
with nonzero configured rate `r` fires exactly once every `K + 1`
scheduler calls where `K = floor(max_rate / min(r, max_rate))` is the
counter reload, so its trigger tally over `n` calls from a fresh counter
is `(n + K) / (K + 1)` — i.e. the long-run rate is `max_rate / (K + 1)`
triggers per second, not `r ± 1` in general. -/
theorem c7_rate_scheduler (rate n : Nat) (h : 0 < rate) :
    streamTriggerCount 0 n 0 = 0 ∧
    streamTriggerCount rate n 0 =
      (n + TELEMETRY_MAVLINK_MAXRATE / min rate TELEMETRY_MAVLINK_MAXRATE) /
        (TELEMETRY_MAVLINK_MAXRATE / min rate TELEMETRY_MAVLINK_MAXRATE + 1) :=
  ⟨streamTriggerCount_zero_rate n 0,
   streamTriggerCount_formula rate (Nat.pos_iff_ne_zero.mp h) n⟩

/-- C7 witness: the amended scheduler theorem evaluated at rate 2 over two
seconds of calls. -/
theorem c7_rate_scheduler_witness :
    streamTriggerCount 0 100 0 = 0 ∧
    streamTriggerCount 2 100 0 =
      (100 + TELEMETRY_MAVLINK_MAXRATE / min 2 TELEMETRY_MAVLINK_MAXRATE) /
        (TELEMETRY_MAVLINK_MAXRATE / min 2 TELEMETRY_MAVLINK_MAXRATE + 1) :=
  c7_rate_scheduler 2 100 (by decide)

/-- The support check of the item handler, negated, is exactly
`commandSupported`. -/
theorem commandSupported_iff (m : MissionItemMsg) :
    ¬(m.autocontinue = 0 ∨
        (m.command ≠ MAV_CMD_NAV_WAYPOINT ∧ m.command ≠ MAV_CMD_NAV_RETURN_TO_LAUNCH)) ↔
      commandSupported m := by
  unfold commandSupported
  tauto

/-- The frame check of the item handler, negated, is exactly
`frameSupported`. -/
theorem frameSupported_iff (m : MissionItemMsg) :
    ¬(m.frame ≠ MAV_FRAME_GLOBAL_RELATIVE_ALT ∧
        ¬(m.frame = MAV_FRAME_MISSION ∧ m.command = MAV_CMD_NAV_RETURN_TO_LAUNCH)) ↔
      frameSupported m := by
  unfold frameSupported
  tauto

/-- Item handler, armed branch: an addressed upload while armed is
rejected with ERROR, everything unchanged. -/
theorem item_armed (env : Env) (m : MissionItemMsg) (s : MavState)
    (ht : m.target_system = mavSystemId) :
    handleIncoming_MISSION_ITEM env true m s =
      { handled := true, state := s, sent := [OutMsg.ack MavMissionResult.missionError] } := by
  simp [handleIncoming_MISSION_ITEM, ht]

/-- Item handler, unsupported-command branch: an addressed, disarmed
upload failing the support check is answered UNSUPPORTED, everything
unchanged. -/
theorem item_unsupported (env : Env) (m : MissionItemMsg) (s : MavState)
    (ht : m.target_system = mavSystemId) (hcs : ¬commandSupported m) :
    handleIncoming_MISSION_ITEM env false m s =
      { handled := true, state := s, sent := [OutMsg.ack MavMissionResult.unsupported] } := by
  have hcond := (commandSupported_iff m).not.mpr hcs
  rw [not_not] at hcond
  simp [handleIncoming_MISSION_ITEM, ht, hcond]

/-- Item handler, unsupported-frame branch: an addressed, disarmed upload
passing the support check but failing the frame check is answered
UNSUPPORTED_FRAME, everything unchanged. -/
theorem item_badframe (env : Env) (m : MissionItemMsg) (s : MavState)
    (ht : m.target_system = mavSystemId) (hcs : commandSupported m)
    (hfs : ¬frameSupported m) :
    handleIncoming_MISSION_ITEM env false m s =
      { handled := true, state := s, sent := [OutMsg.ack MavMissionResult.unsupportedFrame] } := by
  have hcmd : ¬(m.autocontinue = 0 ∨
      (m.command ≠ MAV_CMD_NAV_WAYPOINT ∧ m.command ≠ MAV_CMD_NAV_RETURN_TO_LAUNCH)) :=
    (commandSupported_iff m).mpr hcs
  have hfr := (frameSupported_iff m).not.mpr hfs
  rw [not_not] at hfr
  simp [handleIncoming_MISSION_ITEM, ht, hcmd, hfr]

/-- Item handler, wrong-sequence branch: an addressed, disarmed,
supported, well-framed upload whose sequence number is not the expected
one is answered INVALID_SEQUENCE, everything unchanged. -/
theorem item_wrongseq (env : Env) (m : MissionItemMsg) (s : MavState)
    (ht : m.target_system = mavSystemId) (hcs : commandSupported m)
    (hfs : frameSupported m) (hseq : (m.seq : Int) ≠ s.wpSequence) :
    handleIncoming_MISSION_ITEM env false m s =
      { handled := true, state := s, sent := [OutMsg.ack MavMissionResult.invalidSequence] } := by
  have hcmd : ¬(m.autocontinue = 0 ∨
      (m.command ≠ MAV_CMD_NAV_WAYPOINT ∧ m.command ≠ MAV_CMD_NAV_RETURN_TO_LAUNCH)) :=
    (commandSupported_iff m).mpr hcs
  have hfr : ¬(m.frame ≠ MAV_FRAME_GLOBAL_RELATIVE_ALT ∧
      ¬(m.frame = MAV_FRAME_MISSION ∧ m.command = MAV_CMD_NAV_RETURN_TO_LAUNCH)) :=
    (frameSupported_iff m).mpr hfs
  simp [handleIncoming_MISSION_ITEM, ht, hcmd, hfr, hseq]
  tauto

/-- Item handler, accepting branch: an addressed, disarmed, supported,
well-framed upload carrying the expected sequence number advances the
cursor, stores the converted waypoint at the incremented 1-based position
(flagged end-of-list when the count is reached), and answers with either
the next item request or the whole-list validation ack. -/
theorem item_accept (env : Env) (m : MissionItemMsg) (s : MavState)
    (ht : m.target_system = mavSystemId) (hcs : commandSupported m)
    (hfs : frameSupported m) (hseq : (m.seq : Int) = s.wpSequence) :
    handleIncoming_MISSION_ITEM env false m s =
      { handled := true
        state := { wpCount := s.wpCount, wpSequence := s.wpSequence + 1
                   mission := missionSet s.mission (s.wpSequence + 1)
                     (mkStoredWp env m (decide (s.wpCount ≤ s.wpSequence + 1))) }
        sent :=
          if s.wpCount ≤ s.wpSequence + 1 then
            [OutMsg.ack (if env.isWaypointListValid
                (missionSet s.mission (s.wpSequence + 1)
                  (mkStoredWp env m (decide (s.wpCount ≤ s.wpSequence + 1)))) then
              MavMissionResult.accepted else MavMissionResult.invalid)]
          else [OutMsg.missionRequest (s.wpSequence + 1)] } := by
  have hcmd : ¬(m.autocontinue = 0 ∨
      (m.command ≠ MAV_CMD_NAV_WAYPOINT ∧ m.command ≠ MAV_CMD_NAV_RETURN_TO_LAUNCH)) :=
    (commandSupported_iff m).mpr hcs
  have hfr : ¬(m.frame ≠ MAV_FRAME_GLOBAL_RELATIVE_ALT ∧
      ¬(m.frame = MAV_FRAME_MISSION ∧ m.command = MAV_CMD_NAV_RETURN_TO_LAUNCH)) :=
    (frameSupported_iff m).mpr hfs
  simp only [handleIncoming_MISSION_ITEM, if_pos ht, Bool.false_eq_true, if_false,
    if_neg hcmd, if_neg hfr, if_pos hseq]
  by_cases h1 : s.wpCount ≤ s.wpSequence + 1
  · rw [decide_eq_true h1, if_pos h1, if_pos h1]
    by_cases h2 : env.isWaypointListValid
        (missionSet s.mission (s.wpSequence + 1) (mkStoredWp env m true)) = true
    · rw [if_pos h2, if_pos h2]
    · rw [if_neg h2, if_neg h2]
  · rw [decide_eq_false h1, if_neg h1, if_neg h1]

/-- Item handler, not-addressed branch: a message for another system id is
ignored and reported unhandled. -/
theorem item_notaddressed (env : Env) (armed : Bool) (m : MissionItemMsg) (s : MavState)
    (ht : m.target_system ≠ mavSystemId) :
    handleIncoming_MISSION_ITEM env armed m s =
      { handled := false, state := s, sent := [] } := by
  simp [handleIncoming_MISSION_ITEM, ht]

/-- A concrete addressed waypoint-item message with sequence number 0,
valid for upload (supported command, supported frame, autocontinue set). -/
def itemMsg0 : MissionItemMsg :=
  { target_system := 1, seq := 0, frame := MAV_FRAME_GLOBAL_RELATIVE_ALT,
    command := MAV_CMD_NAV_WAYPOINT, autocontinue := 1, x := 45, y := 17, z := 120 }

/-- The family of concrete valid upload items: `itemMsgAt i` is `itemMsg0`
carrying sequence number `i`. -/
def itemMsgAt (i : Nat) : MissionItemMsg :=
  { itemMsg0 with seq := i }

/-- A concrete stored waypoint used to witness that the mission list
changes. -/
def wpProbe : NavWaypoint :=
  { action := NAV_WP_ACTION_WAYPOINT, lat := 10, lon := 20, alt := 30,
    p1 := 0, p2 := 0, p3 := 0, flag := 0 }

/-- A concrete state holding one stored waypoint and a live transfer
session expecting 3 items with item 1 up next. -/
def stateProbe : MavState :=
  { wpCount := 3, wpSequence := 1, mission := fun i => if i = 1 then some wpProbe else none }

/-- C2 counterexample: the claim says a list-clear returns the session to
IDLE with wpCount and wpSequence both zero afterwards. From a session with
wpCount 3 and wpSequence 1 the source clears the list and acks ACCEPTED
but leaves both counters untouched, so they are not zero. -/
theorem c2_clear_counterexample :
    (handleIncoming_MISSION_CLEAR_ALL { target_system := 1 } stateProbe).sent =
      [OutMsg.ack MavMissionResult.accepted] ∧
    ¬((handleIncoming_MISSION_CLEAR_ALL { target_system := 1 } stateProbe).state.wpCount = 0 ∧
      (handleIncoming_MISSION_CLEAR_ALL { target_system := 1 } stateProbe).state.wpSequence = 0) := by
  refine ⟨rfl, fun hcl => ?_⟩
  have h3 : (handleIncoming_MISSION_CLEAR_ALL { target_system := 1 } stateProbe).state.wpCount
      = 3 := rfl
  rw [h3] at hcl
  exact absurd hcl.1 (by decide)

/-- C2 (amended): a list-clear request addressed to this system always
clears the owned mission list and sends an ACCEPTED ack, regardless of
prior state, but the transfer counters wpCount and wpSequence are left
unchanged rather than reset to zero. -/
theorem c2_clear_all (msg : MissionClearAllMsg) (s : MavState)
    (h : msg.target_system = mavSystemId) :
    (handleIncoming_MISSION_CLEAR_ALL msg s).handled = true ∧
    (handleIncoming_MISSION_CLEAR_ALL msg s).sent = [OutMsg.ack MavMissionResult.accepted] ∧
    (∀ i, (handleIncoming_MISSION_CLEAR_ALL msg s).state.mission i = none) ∧
    (handleIncoming_MISSION_CLEAR_ALL msg s).state.wpCount = s.wpCount ∧
    (handleIncoming_MISSION_CLEAR_ALL msg s).state.wpSequence = s.wpSequence := by
  simp [handleIncoming_MISSION_CLEAR_ALL, h]

/-- C2 witness: the amended list-clear theorem evaluated on the concrete
probe session. -/
theorem c2_clear_all_witness :
    (handleIncoming_MISSION_CLEAR_ALL { target_system := 1 } stateProbe).handled = true ∧
    (handleIncoming_MISSION_CLEAR_ALL { target_system := 1 } stateProbe).sent =
      [OutMsg.ack MavMissionResult.accepted] ∧
    (∀ i, (handleIncoming_MISSION_CLEAR_ALL { target_system := 1 } stateProbe).state.mission i =
      none) ∧
    (handleIncoming_MISSION_CLEAR_ALL { target_system := 1 } stateProbe).state.wpCount =
      stateProbe.wpCount ∧
    (handleIncoming_MISSION_CLEAR_ALL { target_system := 1 } stateProbe).state.wpSequence =
      stateProbe.wpSequence :=
  c2_clear_all { target_system := 1 } stateProbe rfl

/-- An addressed RTL item in the global relative-altitude frame: invalid
per the claim's frame rule (RTL would require the mission frame), accepted
by the source's check. -/
def rtlRelAltItem : MissionItemMsg :=
  { target_system := 1, seq := 0, frame := MAV_FRAME_GLOBAL_RELATIVE_ALT,
    command := MAV_CMD_NAV_RETURN_TO_LAUNCH, autocontinue := 1, x := 0, y := 0, z := 0 }

/-- C4 counterexample: the claim says the frame is invalid for an RTL
command unless it is the mission frame, and an invalid frame is answered
with UNSUPPORTED_FRAME leaving state unchanged. An RTL item in the global
relative-altitude frame is claim-invalid, yet the source does not send an
UNSUPPORTED_FRAME ack and does mutate the session (the item is accepted
and stored). -/
theorem c4_frame_counterexample :
    claimedFrameInvalid rtlRelAltItem ∧
    (handleIncoming_MISSION_ITEM envDefault false rtlRelAltItem initialState).sent ≠
      [OutMsg.ack MavMissionResult.unsupportedFrame] ∧
    (handleIncoming_MISSION_ITEM envDefault false rtlRelAltItem initialState).state.wpSequence ≠
      initialState.wpSequence := by
  refine ⟨?_, by decide, by decide⟩
  unfold claimedFrameInvalid
  decide

/-- C4 (amended): for an addressed, disarmed item upload passing the
support check, the reply is an UNSUPPORTED_FRAME ack with all state
unchanged exactly when the frame fails the source's rule: the global
relative-altitude frame is accepted for every supported command, and the
mission frame is additionally accepted for an RTL command — so WAYPOINT
requires the relative-altitude frame, while RTL accepts either frame. -/
theorem c4_frame_check (env : Env) (m : MissionItemMsg) (s : MavState)
    (ht : m.target_system = mavSystemId) (hcs : commandSupported m) :
    ((handleIncoming_MISSION_ITEM env false m s).sent =
        [OutMsg.ack MavMissionResult.unsupportedFrame] ∧
      (handleIncoming_MISSION_ITEM env false m s).state = s) ↔
    ¬frameSupported m := by
  constructor
  · rintro ⟨hsent, -⟩
    intro hfs
    by_cases hseq : (m.seq : Int) = s.wpSequence
    · rw [item_accept env m s ht hcs hfs hseq] at hsent
      by_cases h1 : s.wpCount ≤ s.wpSequence + 1
      · rw [if_pos h1] at hsent
        by_cases h2 : env.isWaypointListValid
            (missionSet s.mission (s.wpSequence + 1)
              (mkStoredWp env m (decide (s.wpCount ≤ s.wpSequence + 1)))) = true
        · rw [if_pos h2] at hsent
          simp at hsent
        · rw [if_neg h2] at hsent
          simp at hsent
      · rw [if_neg h1] at hsent
        simp at hsent
    · rw [item_wrongseq env m s ht hcs hfs hseq] at hsent
      simp at hsent
  · intro hfs
    rw [item_badframe env m s ht hcs hfs]
    exact ⟨rfl, rfl⟩

/-- C4 witness: the amended frame-check theorem evaluated on a WAYPOINT
item carrying the mission frame (invalid for WAYPOINT: its only accepted
frame is the relative-altitude one). -/
theorem c4_frame_check_witness :
    ((handleIncoming_MISSION_ITEM envDefault false { itemMsg0 with frame := MAV_FRAME_MISSION }
        initialState).sent = [OutMsg.ack MavMissionResult.unsupportedFrame] ∧
      (handleIncoming_MISSION_ITEM envDefault false { itemMsg0 with frame := MAV_FRAME_MISSION }
        initialState).state = initialState) ↔
    ¬frameSupported { itemMsg0 with frame := MAV_FRAME_MISSION } :=
  c4_frame_check envDefault { itemMsg0 with frame := MAV_FRAME_MISSION } initialState rfl
    (by constructor <;> decide)

/-- C5 counterexample: the claim says every mutating mission request
received while armed — including list-clear — is rejected with an ERROR
ack and leaves the stored list unchanged. The source's list-clear handler
reads no arming flag at all: processing an addressed list-clear (in
particular while the vehicle is armed) erases the stored waypoint and
acks ACCEPTED, not ERROR. -/
theorem c5_armed_clear_counterexample :
    (handleIncoming_MISSION_CLEAR_ALL { target_system := 1 } stateProbe).sent ≠
      [OutMsg.ack MavMissionResult.missionError] ∧
    stateProbe.mission 1 = some wpProbe ∧
    (handleIncoming_MISSION_CLEAR_ALL { target_system := 1 } stateProbe).state.mission 1 =
      none := by
  refine ⟨by decide, rfl, rfl⟩

/-- C5 (amended): an addressed item upload received while armed is
rejected with an ERROR ack and leaves all state unchanged; the list-clear
handler, however, is not guarded by arming — an addressed list-clear
(armed or not) clears the stored list and acks ACCEPTED. -/
theorem c5_armed_mutations (env : Env) (m : MissionItemMsg) (c : MissionClearAllMsg)
    (s : MavState) (hm : m.target_system = mavSystemId) (hc : c.target_system = mavSystemId) :
    (handleIncoming_MISSION_ITEM env true m s).handled = true ∧
    (handleIncoming_MISSION_ITEM env true m s).state = s ∧
    (handleIncoming_MISSION_ITEM env true m s).sent =
      [OutMsg.ack MavMissionResult.missionError] ∧
    (handleIncoming_MISSION_CLEAR_ALL c s).sent = [OutMsg.ack MavMissionResult.accepted] ∧
    (∀ i, (handleIncoming_MISSION_CLEAR_ALL c s).state.mission i = none) := by
  rw [item_armed env m s hm]
  simp [handleIncoming_MISSION_CLEAR_ALL, hc]

/-- C5 witness: the amended armed-mutation theorem evaluated on the
concrete probe session. -/
theorem c5_armed_mutations_witness :
    (handleIncoming_MISSION_ITEM envDefault true itemMsg0 stateProbe).handled = true ∧
    (handleIncoming_MISSION_ITEM envDefault true itemMsg0 stateProbe).state = stateProbe ∧
    (handleIncoming_MISSION_ITEM envDefault true itemMsg0 stateProbe).sent =
      [OutMsg.ack MavMissionResult.missionError] ∧
    (handleIncoming_MISSION_CLEAR_ALL { target_system := 1 } stateProbe).sent =
      [OutMsg.ack MavMissionResult.accepted] ∧
    (∀ i, (handleIncoming_MISSION_CLEAR_ALL { target_system := 1 } stateProbe).state.mission i =
      none) :=
  c5_armed_mutations envDefault itemMsg0 { target_system := 1 } stateProbe rfl rfl

/-- C10: with the session counters in their initial zero state (no count
announcement received), an addressed, disarmed item upload with sequence
number 0, a supported command/autocontinue and a supported frame is
nevertheless accepted: the cursor advances to 1, the converted waypoint is
stored at position 1 carrying the end-of-list flag, and the reply is the
whole-list validation ack (ACCEPTED or INVALID) — item uploads are not
rejected merely because no session was announced. -/
theorem c10_item_without_session (env : Env) (m : MissionItemMsg)
    (mission0 : Int → Option NavWaypoint)
    (ht : m.target_system = mavSystemId) (hseq : m.seq = 0)
    (hcs : commandSupported m) (hfs : frameSupported m) :
    (handleIncoming_MISSION_ITEM env false m ⟨0, 0, mission0⟩).handled = true ∧
    (handleIncoming_MISSION_ITEM env false m ⟨0, 0, mission0⟩).state.wpSequence = 1 ∧
    (handleIncoming_MISSION_ITEM env false m ⟨0, 0, mission0⟩).state.mission 1 =
      some (mkStoredWp env m true) ∧
    (mkStoredWp env m true).flag = NAV_WP_FLAG_LAST ∧
    (handleIncoming_MISSION_ITEM env false m ⟨0, 0, mission0⟩).sent =
      [OutMsg.ack (if env.isWaypointListValid
          ((handleIncoming_MISSION_ITEM env false m ⟨0, 0, mission0⟩).state.mission) then
        MavMissionResult.accepted else MavMissionResult.invalid)] := by
  have hs : (m.seq : Int) = (MavState.mk 0 0 mission0).wpSequence := by
    rw [hseq]
    rfl
  have hacc : handleIncoming_MISSION_ITEM env false m ⟨0, 0, mission0⟩ =
      { handled := true
        state := { wpCount := 0, wpSequence := 1,
                   mission := missionSet mission0 1 (mkStoredWp env m true) }
        sent := [OutMsg.ack (if env.isWaypointListValid
            (missionSet mission0 1 (mkStoredWp env m true)) then
          MavMissionResult.accepted else MavMissionResult.invalid)] } := by
    rw [item_accept env m ⟨0, 0, mission0⟩ ht hcs hfs hs]
    rfl
  rw [hacc]
  refine ⟨rfl, rfl, ?_, rfl, rfl⟩
  show missionSet mission0 1 (mkStoredWp env m true) 1 = some (mkStoredWp env m true)
  simp [missionSet]

/-- C10 witness: the no-session acceptance theorem evaluated on the
concrete item message over an empty mission store. -/
theorem c10_item_without_session_witness :
    (handleIncoming_MISSION_ITEM envDefault false itemMsg0 ⟨0, 0, fun _ => none⟩).handled =
      true ∧
    (handleIncoming_MISSION_ITEM envDefault false itemMsg0
      ⟨0, 0, fun _ => none⟩).state.wpSequence = 1 ∧
    (handleIncoming_MISSION_ITEM envDefault false itemMsg0 ⟨0, 0, fun _ => none⟩).state.mission
      1 = some (mkStoredWp envDefault itemMsg0 true) ∧
    (mkStoredWp envDefault itemMsg0 true).flag = NAV_WP_FLAG_LAST ∧
    (handleIncoming_MISSION_ITEM envDefault false itemMsg0 ⟨0, 0, fun _ => none⟩).sent =
      [OutMsg.ack (if envDefault.isWaypointListValid
          ((handleIncoming_MISSION_ITEM envDefault false itemMsg0
            ⟨0, 0, fun _ => none⟩).state.mission) then
        MavMissionResult.accepted else MavMissionResult.invalid)] :=
  c10_item_without_session envDefault itemMsg0 (fun _ => none) rfl rfl
    (by constructor <;> decide) (by left; decide)

/-- C8: in any state awaiting sequence `s.wpSequence`, an addressed,
disarmed, otherwise-valid item upload with the wrong sequence number is
answered with an INVALID_SEQUENCE ack and leaves the whole state (cursor
and stored list) unchanged, and a correct item with the expected sequence
number submitted afterwards is still accepted: it advances the cursor,
stores its waypoint, and its reply is not an INVALID_SEQUENCE ack. -/
theorem c8_wrong_sequence_retry (env : Env) (m mgood : MissionItemMsg) (s : MavState)
    (ht : m.target_system = mavSystemId) (hcs : commandSupported m)
    (hfs : frameSupported m) (hseq : (m.seq : Int) ≠ s.wpSequence)
    (ht2 : mgood.target_system = mavSystemId) (hcs2 : commandSupported mgood)
    (hfs2 : frameSupported mgood) (hseq2 : (mgood.seq : Int) = s.wpSequence) :
    (handleIncoming_MISSION_ITEM env false m s).handled = true ∧
    (handleIncoming_MISSION_ITEM env false m s).state = s ∧
    (handleIncoming_MISSION_ITEM env false m s).sent =
      [OutMsg.ack MavMissionResult.invalidSequence] ∧
    (handleIncoming_MISSION_ITEM env false mgood
      (handleIncoming_MISSION_ITEM env false m s).state).handled = true ∧
    (handleIncoming_MISSION_ITEM env false mgood
      (handleIncoming_MISSION_ITEM env false m s).state).state.wpSequence =
        s.wpSequence + 1 ∧
    (handleIncoming_MISSION_ITEM env false mgood
      (handleIncoming_MISSION_ITEM env false m s).state).state.mission (s.wpSequence + 1) =
        some (mkStoredWp env mgood (decide (s.wpCount ≤ s.wpSequence + 1))) ∧
    (handleIncoming_MISSION_ITEM env false mgood
      (handleIncoming_MISSION_ITEM env false m s).state).sent ≠
        [OutMsg.ack MavMissionResult.invalidSequence] := by
  have h1 := item_wrongseq env m s ht hcs hfs hseq
  simp only [h1]
  have h2 := item_accept env mgood s ht2 hcs2 hfs2 hseq2
  rw [h2]
  refine ⟨trivial, trivial, trivial, rfl, rfl, ?_, ?_⟩
  · show missionSet s.mission (s.wpSequence + 1)
      (mkStoredWp env mgood (decide (s.wpCount ≤ s.wpSequence + 1))) (s.wpSequence + 1) =
        some (mkStoredWp env mgood (decide (s.wpCount ≤ s.wpSequence + 1)))
    simp [missionSet]
  · by_cases hcnt : s.wpCount ≤ s.wpSequence + 1
    · rw [if_pos hcnt]
      by_cases hv : env.isWaypointListValid (missionSet s.mission (s.wpSequence + 1)
          (mkStoredWp env mgood (decide (s.wpCount ≤ s.wpSequence + 1)))) = true
      · rw [if_pos hv]
        simp
      · rw [if_neg hv]
        simp
    · rw [if_neg hcnt]
      simp

/-- C8 witness: the wrong-sequence theorem evaluated on the concrete probe
session (awaiting sequence 1) with a seq-2 item rejected and the seq-1
item accepted afterwards. -/
theorem c8_wrong_sequence_retry_witness :
    (handleIncoming_MISSION_ITEM envDefault false (itemMsgAt 2) stateProbe).handled = true ∧
    (handleIncoming_MISSION_ITEM envDefault false (itemMsgAt 2) stateProbe).state =
      stateProbe ∧
    (handleIncoming_MISSION_ITEM envDefault false (itemMsgAt 2) stateProbe).sent =
      [OutMsg.ack MavMissionResult.invalidSequence] ∧
    (handleIncoming_MISSION_ITEM envDefault false (itemMsgAt 1)
      (handleIncoming_MISSION_ITEM envDefault false (itemMsgAt 2) stateProbe).state).handled =
        true ∧
    (handleIncoming_MISSION_ITEM envDefault false (itemMsgAt 1)
      (handleIncoming_MISSION_ITEM envDefault false
        (itemMsgAt 2) stateProbe).state).state.wpSequence = stateProbe.wpSequence + 1 ∧
    (handleIncoming_MISSION_ITEM envDefault false (itemMsgAt 1)
      (handleIncoming_MISSION_ITEM envDefault false (itemMsgAt 2) stateProbe).state).state.mission
        (stateProbe.wpSequence + 1) =
      some (mkStoredWp envDefault (itemMsgAt 1)
        (decide (stateProbe.wpCount ≤ stateProbe.wpSequence + 1))) ∧
    (handleIncoming_MISSION_ITEM envDefault false (itemMsgAt 1)
      (handleIncoming_MISSION_ITEM envDefault false (itemMsgAt 2) stateProbe).state).sent ≠
        [OutMsg.ack MavMissionResult.invalidSequence] :=
  c8_wrong_sequence_retry envDefault (itemMsgAt 2) (itemMsgAt 1) stateProbe rfl
    (by constructor <;> decide) (by left; decide) (by decide) rfl
    (by constructor <;> decide) (by left; decide) (by decide)

/-- The clear-all handler never touches the transfer counters. -/
theorem clear_state_counters (m : MissionClearAllMsg) (s : MavState) :
    (handleIncoming_MISSION_CLEAR_ALL m s).state.wpCount = s.wpCount ∧
    (handleIncoming_MISSION_CLEAR_ALL m s).state.wpSequence = s.wpSequence := by
  unfold handleIncoming_MISSION_CLEAR_ALL
  split <;> exact ⟨rfl, rfl⟩

/-- The count handler either leaves the counters unchanged or installs a
count within capacity and a zero sequence. -/
theorem count_state_shape (env : Env) (armed : Bool) (m : MissionCountMsg) (s : MavState) :
    ((handleIncoming_MISSION_COUNT env armed m s).state.wpCount = s.wpCount ∧
     (handleIncoming_MISSION_COUNT env armed m s).state.wpSequence = s.wpSequence) ∨
    ((handleIncoming_MISSION_COUNT env armed m s).state.wpCount = (m.count : Int) ∧
     (m.count : Int) ≤ env.navMaxWaypoints ∧
     (handleIncoming_MISSION_COUNT env armed m s).state.wpSequence = 0) := by
  unfold handleIncoming_MISSION_COUNT
  split
  · split
    · right
      exact ⟨rfl, by assumption, rfl⟩
    · split
      · left
        exact ⟨rfl, rfl⟩
      · left
        exact ⟨rfl, rfl⟩
  · left
    exact ⟨rfl, rfl⟩

/-- The item handler keeps the count and either keeps the sequence or
advances it by one. -/
theorem item_state_shape (env : Env) (armed : Bool) (m : MissionItemMsg) (s : MavState) :
    (handleIncoming_MISSION_ITEM env armed m s).state.wpCount = s.wpCount ∧
    ((handleIncoming_MISSION_ITEM env armed m s).state.wpSequence = s.wpSequence ∨
     (handleIncoming_MISSION_ITEM env armed m s).state.wpSequence = s.wpSequence + 1) := by
  simp only [handleIncoming_MISSION_ITEM]
  split
  · split
    · exact ⟨rfl, Or.inl rfl⟩
    · split
      · exact ⟨rfl, Or.inl rfl⟩
      · split
        · exact ⟨rfl, Or.inl rfl⟩
        · split
          · split
            · split
              · exact ⟨rfl, Or.inr rfl⟩
              · exact ⟨rfl, Or.inr rfl⟩
            · exact ⟨rfl, Or.inr rfl⟩
          · exact ⟨rfl, Or.inl rfl⟩
  · exact ⟨rfl, Or.inl rfl⟩

/-- The list-request handler never changes state. -/
theorem requestList_state (env : Env) (m : MissionRequestListMsg) (s : MavState) :
    (handleIncoming_MISSION_REQUEST_LIST env m s).state = s := by
  unfold handleIncoming_MISSION_REQUEST_LIST
  split <;> rfl

/-- The item-request handler never changes state. -/
theorem request_state (env : Env) (m : MissionRequestMsg) (s : MavState) :
    (handleIncoming_MISSION_REQUEST env m s).state = s := by
  unfold handleIncoming_MISSION_REQUEST
  split
  · split <;> rfl
  · rfl

/-- One dispatched message preserves the counter bounds `0 ≤ wpCount ≤
capacity` and `0 ≤ wpSequence`. -/
theorem missionStep_bounds (env : Env) (armed : Bool) (msg : RecvMsg) (s : MavState)
    (hc0 : 0 ≤ s.wpCount) (hcmax : s.wpCount ≤ env.navMaxWaypoints)
    (hs0 : 0 ≤ s.wpSequence) :
    0 ≤ (missionStep env armed msg s).wpCount ∧
    (missionStep env armed msg s).wpCount ≤ env.navMaxWaypoints ∧
    0 ≤ (missionStep env armed msg s).wpSequence := by
  cases msg with
  | heartbeat => exact ⟨hc0, hcmax, hs0⟩
  | other i => exact ⟨hc0, hcmax, hs0⟩
  | missionClearAll m =>
      have h := clear_state_counters m s
      simp only [missionStep]
      rw [h.1, h.2]
      exact ⟨hc0, hcmax, hs0⟩
  | missionCount m =>
      simp only [missionStep]
      rcases count_state_shape env armed m s with ⟨h1, h2⟩ | ⟨h1, hle, h2⟩
      · rw [h1, h2]
        exact ⟨hc0, hcmax, hs0⟩
      · rw [h1, h2]
        exact ⟨Int.natCast_nonneg m.count, hle, le_refl 0⟩
  | missionItem m =>
      simp only [missionStep]
      rcases item_state_shape env armed m s with ⟨h1, h2 | h2⟩
      · rw [h1, h2]
        exact ⟨hc0, hcmax, hs0⟩
      · rw [h1, h2]
        exact ⟨hc0, hcmax, by omega⟩
  | missionRequestList m =>
      simp only [missionStep, requestList_state]
      exact ⟨hc0, hcmax, hs0⟩
  | missionRequest m =>
      simp only [missionStep, request_state]
      exact ⟨hc0, hcmax, hs0⟩

/-- The counter bounds are preserved along any run of dispatched
messages. -/
theorem runMessages_bounds (env : Env) (inputs : List (Bool × RecvMsg)) :
    ∀ s : MavState, 0 ≤ s.wpCount → s.wpCount ≤ env.navMaxWaypoints → 0 ≤ s.wpSequence →
    0 ≤ (runMessages env inputs s).wpCount ∧
    (runMessages env inputs s).wpCount ≤ env.navMaxWaypoints ∧
    0 ≤ (runMessages env inputs s).wpSequence := by
  induction inputs with
  | nil =>
      intro s h1 h2 h3
      exact ⟨h1, h2, h3⟩
  | cons inp rest ih =>
      intro s h1 h2 h3
      have hb := missionStep_bounds env inp.1 inp.2 s h1 h2 h3
      have hr := ih (missionStep env inp.1 inp.2 s) hb.1 hb.2.1 hb.2.2
      simpa [runMessages, List.foldl_cons] using hr

/-- C3 counterexample: the claim asserts that every reachable state has
either a zero session (wpSequence = wpCount = 0) or
`wpSequence ≤ wpCount`. From the initial zero state, a single addressed,
disarmed, valid item upload with sequence 0 is accepted — with no count
announcement ever made — leaving wpSequence = 1 > wpCount = 0, violating
both disjuncts. -/
theorem c3_invariant_counterexample :
    (runMessages envDefault [(false, RecvMsg.missionItem itemMsg0)] initialState).wpSequence =
      1 ∧
    (runMessages envDefault [(false, RecvMsg.missionItem itemMsg0)] initialState).wpCount = 0 ∧
    ¬(((runMessages envDefault [(false, RecvMsg.missionItem itemMsg0)]
          initialState).wpSequence = 0 ∧
       (runMessages envDefault [(false, RecvMsg.missionItem itemMsg0)]
          initialState).wpCount = 0) ∨
      (runMessages envDefault [(false, RecvMsg.missionItem itemMsg0)]
          initialState).wpSequence ≤
        (runMessages envDefault [(false, RecvMsg.missionItem itemMsg0)]
          initialState).wpCount) := by
  refine ⟨by decide, by decide, by decide⟩

/-- C3 (amended): in every state reachable from the initial zero state by
any sequence of inbound mission-protocol messages, the counters satisfy
`0 ≤ wpCount ≤ MAX_WAYPOINTS` and `0 ≤ wpSequence` (assuming a
nonnegative configured capacity). The claimed upper bound
`wpSequence ≤ wpCount` does not hold — an accepted item advances
wpSequence past wpCount when no session bounds it — and the counters are
not reset to zero on completion, rejection, or list-clear. -/
theorem c3_counter_invariant (env : Env) (inputs : List (Bool × RecvMsg))
    (hmax : 0 ≤ env.navMaxWaypoints) :
    0 ≤ (runMessages env inputs initialState).wpCount ∧
    (runMessages env inputs initialState).wpCount ≤ env.navMaxWaypoints ∧
    0 ≤ (runMessages env inputs initialState).wpSequence :=
  runMessages_bounds env inputs initialState (le_refl 0) hmax (le_refl 0)

/-- C3 witness: the amended counter invariant evaluated on a concrete
run: a count announcement of 2 followed by an out-of-session item and a
list-clear. -/
theorem c3_counter_invariant_witness :
    0 ≤ (runMessages envDefault
      [(false, RecvMsg.missionCount { target_system := 1, count := 2 }),
       (false, RecvMsg.missionItem itemMsg0),
       (false, RecvMsg.missionClearAll { target_system := 1 })] initialState).wpCount ∧
    (runMessages envDefault
      [(false, RecvMsg.missionCount { target_system := 1, count := 2 }),
       (false, RecvMsg.missionItem itemMsg0),
       (false, RecvMsg.missionClearAll { target_system := 1 })] initialState).wpCount ≤
      envDefault.navMaxWaypoints ∧
    0 ≤ (runMessages envDefault
      [(false, RecvMsg.missionCount { target_system := 1, count := 2 }),
       (false, RecvMsg.missionItem itemMsg0),
       (false, RecvMsg.missionClearAll { target_system := 1 })] initialState).wpSequence :=
  c3_counter_invariant envDefault
    [(false, RecvMsg.missionCount { target_system := 1, count := 2 }),
     (false, RecvMsg.missionItem itemMsg0),
     (false, RecvMsg.missionClearAll { target_system := 1 })] (by decide)

/-- A single decoder call dispatches at most one loop-terminating
(non-heartbeat) frame. -/
theorem decoder_dispatched_le_one (env : Env) (armed : Bool) :
    ∀ (stream : List (Option RecvMsg)) (s : MavState),
    (processMAVLinkIncomingTelemetry env armed stream s).dispatched ≤ 1 := by
  intro stream
  induction stream with
  | nil =>
      intro s
      exact Nat.zero_le 1
  | cons b rest ih =>
      intro s
      cases b with
      | none => simpa [processMAVLinkIncomingTelemetry] using ih s
      | some msg =>
          cases msg <;> simp [processMAVLinkIncomingTelemetry]
          exact ih s

/-- C6 counterexample: the claim says a single decoder call decodes at
most one complete frame before stopping, and that a heartbeat frame is
accepted as handled. Feeding two bytes that each complete a heartbeat
frame, one call decodes two complete frames (the heartbeat only breaks
the switch, not the read loop) and still reports not-handled. -/
theorem c6_decoder_counterexample :
    (processMAVLinkIncomingTelemetry envDefault false
      [some RecvMsg.heartbeat, some RecvMsg.heartbeat] initialState).framesDecoded = 2 ∧
    (processMAVLinkIncomingTelemetry envDefault false
      [some RecvMsg.heartbeat, some RecvMsg.heartbeat] initialState).handled = false :=
  ⟨rfl, rfl⟩

/-- C6 (amended): a single decoder call dispatches at most one
non-heartbeat frame before stopping its read loop; a completed heartbeat
frame is skipped — the loop continues, the heartbeat contributes only to
the completed-frame tally and never makes the call report handled — and a
completed frame with any unrecognized message id stops the loop with
state untouched, nothing sent, and a not-handled report. -/
theorem c6_decoder (env : Env) (armed : Bool) (stream rest : List (Option RecvMsg))
    (s : MavState) (msgid : Nat) :
    (processMAVLinkIncomingTelemetry env armed stream s).dispatched ≤ 1 ∧
    (processMAVLinkIncomingTelemetry env armed (some RecvMsg.heartbeat :: rest) s).handled =
      (processMAVLinkIncomingTelemetry env armed rest s).handled ∧
    (processMAVLinkIncomingTelemetry env armed (some RecvMsg.heartbeat :: rest) s).state =
      (processMAVLinkIncomingTelemetry env armed rest s).state ∧
    (processMAVLinkIncomingTelemetry env armed (some RecvMsg.heartbeat :: rest) s).sent =
      (processMAVLinkIncomingTelemetry env armed rest s).sent ∧
    (processMAVLinkIncomingTelemetry env armed
        (some RecvMsg.heartbeat :: rest) s).framesDecoded =
      (processMAVLinkIncomingTelemetry env armed rest s).framesDecoded + 1 ∧
    processMAVLinkIncomingTelemetry env armed (some (RecvMsg.other msgid) :: rest) s =
      { handled := false, state := s, sent := [], framesDecoded := 1, dispatched := 1 } :=
  ⟨decoder_dispatched_le_one env armed stream s, rfl, rfl, rfl, rfl, rfl⟩

/-- A concrete orchestrator state: fresh counters, nothing served, epoch
timestamp. -/
def orchProbe : OrchState :=
  { machine := initialState, mavTicks := fun _ => 0,
    incomingRequestServed := false, lastMavlinkMessage := 0 }

/-- C9: in any orchestrator cycle in which the inbound decoder reports
that it handled a message, the scheduled outbound batch does not run that
cycle, even when the minimum inter-send interval has elapsed. -/
theorem c9_inbound_blocks_outbound (env : Env) (enabled portSet armed : Bool) (now : Nat)
    (stream : List (Option RecvMsg)) (os : OrchState) :
    (handleMAVLinkTelemetry env enabled portSet armed now stream os).handledIncoming = true →
    (handleMAVLinkTelemetry env enabled portSet armed now stream os).outboundRan = false := by
  by_cases he : enabled = false ∨ portSet = false
  · simp [handleMAVLinkTelemetry, he]
  · by_cases ht : TELEMETRY_MAVLINK_DELAY ≤ timeDelta now os.lastMavlinkMessage
    · cases hdh : (processMAVLinkIncomingTelemetry env armed stream os.machine).handled
      · simp [handleMAVLinkTelemetry, he, ht, hdh]
        split <;> simp
      · simp [handleMAVLinkTelemetry, he, ht, hdh]
    · cases hdh : (processMAVLinkIncomingTelemetry env armed stream os.machine).handled <;>
        simp [handleMAVLinkTelemetry, he, ht, hdh]

/-- C9 witness: a cycle with an elapsed interval whose inbound stream
completes an addressed list-clear frame: the decoder handles it and the
outbound batch is skipped. -/
theorem c9_inbound_blocks_outbound_witness :
    (handleMAVLinkTelemetry envDefault true true false 50000
      [some (RecvMsg.missionClearAll { target_system := 1 })] orchProbe).outboundRan = false :=
  c9_inbound_blocks_outbound envDefault true true false 50000
    [some (RecvMsg.missionClearAll { target_system := 1 })] orchProbe (by decide)

/-- Before any item is stored, the upload mission view is empty. -/
theorem missionUpTo_zero (env : Env) (mk : Nat → MissionItemMsg) (N : Nat) :
    missionUpTo env mk N 0 = fun _ => none := by
  funext j
  unfold missionUpTo
  have h : ¬(1 ≤ j ∧ j ≤ ((0 : Nat) : Int)) := by
    push_cast
    omega
  rw [if_neg h]

/-- Splitting the first item off a block of consecutive upload items. -/
theorem itemsFrom_succ (mk : Nat → MissionItemMsg) (k n : Nat) :
    itemsFrom mk k (n + 1) = mk k :: itemsFrom mk (k + 1) n := by
  simp only [itemsFrom, List.range_succ_eq_map, List.map_cons, List.map_map, Nat.add_zero]
  congr 1
  congr 1
  funext t
  simp only [Function.comp_apply]
  congr 1
  omega

/-- Storing item `k` (the source stores it at 1-based position `k + 1`)
extends the upload mission view by one entry. -/
theorem missionUpTo_succ (env : Env) (mk : Nat → MissionItemMsg) (N k : Nat) :
    missionSet (missionUpTo env mk N k) ((k : Int) + 1)
      (mkStoredWp env (mk k) (decide ((N : Int) ≤ (k : Int) + 1))) =
    missionUpTo env mk N (k + 1) := by
  funext j
  unfold missionSet missionUpTo
  by_cases hj : j = (k : Int) + 1
  · subst hj
    rw [if_pos rfl, if_pos (by push_cast; omega)]
    have harg : (((k : Int) + 1) - 1).toNat = k := by
      simp
    rw [harg]
  · rw [if_neg hj]
    by_cases hb : 1 ≤ j ∧ j ≤ (k : Int)
    · rw [if_pos hb, if_pos (by push_cast at hb ⊢; omega)]
    · rw [if_neg hb, if_neg (by push_cast at hb ⊢; omega)]

/-- Element extraction from the expected upload replies: position `i` of a
block of `n` remaining items starting at index `k` holds the request for
sequence `k + i + 1` when the item is non-final, and the validation ack
when it is final. -/
theorem expectedItemOuts_getElem (env : Env) (finalMission : Int → Option NavWaypoint) :
    ∀ (n k i : Nat), i < n →
    (expectedItemOuts env finalMission k n)[i]? =
      some (if i + 1 < n then [OutMsg.missionRequest ((k + i + 1 : Nat) : Int)]
            else [OutMsg.ack (if env.isWaypointListValid finalMission then
              MavMissionResult.accepted else MavMissionResult.invalid)]) := by
  intro n
  induction n with
  | zero =>
      intro k i h
      exact absurd h (Nat.not_lt_zero i)
  | succ m ih =>
      intro k i h
      cases i with
      | zero =>
          cases m with
          | zero => simp [expectedItemOuts]
          | succ m2 => simp [expectedItemOuts]
      | succ i2 =>
          have h2 : i2 < m := by omega
          have hiff : i2 + 1 + 1 < m + 1 ↔ i2 + 1 < m := by omega
          have harg : k + (i2 + 1) + 1 = (k + 1) + i2 + 1 := by omega
          simp only [expectedItemOuts, List.getElem?_cons_succ, ih (k + 1) i2 h2, hiff, harg]

/-- Master upload run: processing the remaining valid items `k`, ...,
`N - 1` in order from a session expecting `N` items with cursor at `k`
finishes with the cursor at `N`, the full upload mission view stored, and
the expected request/ack replies. -/
theorem runItems_upload (env : Env) (mk : Nat → MissionItemMsg) (N : Nat)
    (hmk : ∀ i, i < N → ValidUploadItem (mk i) i) :
    ∀ (n k : Nat), k + n = N →
    runItems env false (itemsFrom mk k n)
        ⟨(N : Int), (k : Int), missionUpTo env mk N k⟩ =
      (⟨(N : Int), (N : Int), missionUpTo env mk N N⟩,
       expectedItemOuts env (missionUpTo env mk N N) k n) := by
  intro n
  induction n with
  | zero =>
      intro k hk
      have hkN : k = N := by omega
      subst hkN
      simp [itemsFrom, runItems, expectedItemOuts]
  | succ m ih =>
      intro k hk
      rw [itemsFrom_succ]
      obtain ⟨ht, hseq, hcs, hfs⟩ := hmk k (by omega)
      have hseqInt : ((mk k).seq : Int) =
          (MavState.mk (N : Int) (k : Int) (missionUpTo env mk N k)).wpSequence := by
        rw [hseq]
      have hcast : ((k + 1 : Nat) : Int) = (k : Int) + 1 := by
        push_cast
        ring
      have hacc : handleIncoming_MISSION_ITEM env false (mk k)
          ⟨(N : Int), (k : Int), missionUpTo env mk N k⟩ =
          { handled := true
            state := ⟨(N : Int), ((k + 1 : Nat) : Int), missionUpTo env mk N (k + 1)⟩
            sent :=
              if (N : Int) ≤ (k : Int) + 1 then
                [OutMsg.ack (if env.isWaypointListValid (missionUpTo env mk N (k + 1)) then
                  MavMissionResult.accepted else MavMissionResult.invalid)]
              else [OutMsg.missionRequest ((k + 1 : Nat) : Int)] } := by
        rw [item_accept env (mk k) ⟨(N : Int), (k : Int), missionUpTo env mk N k⟩
          ht hcs hfs hseqInt]
        rw [hcast]
        have hmiss := missionUpTo_succ env mk N k
        simp only [hmiss]
      simp only [runItems, hacc]
      cases m with
      | zero =>
          have hkN : k + 1 = N := by omega
          have hle : (N : Int) ≤ (k : Int) + 1 := by
            omega
          rw [if_pos hle, hkN]
          simp [runItems, expectedItemOuts]
      | succ m2 =>
          have hgt : ¬((N : Int) ≤ (k : Int) + 1) := by
            omega
          rw [if_neg hgt]
          have hrec := ih (k + 1) (by omega)
          rw [hrec]
          simp [expectedItemOuts]

/-- The full upload scenario of claim C1: a count announcement of `N`
over an empty mission list followed by the items 0..N-1 in strict
order, yielding the final machine state and the per-item replies. -/
def uploadRun (env : Env) (N : Nat) (mk : Nat → MissionItemMsg) (wc0 ws0 : Int) :
    MavState × List (List OutMsg) :=
  runItems env false (itemsFrom mk 0 N)
    (handleIncoming_MISSION_COUNT env false { target_system := 1, count := N }
      ⟨wc0, ws0, fun _ => none⟩).state

/-- C1: for `0 < N ≤ capacity`, a count announcement of `N` (from any
counter values, over an empty mission list) is answered with a request
for item 0 and creates the session; uploading addressed, disarmed, valid
items 0..N-1 in strict order then stores exactly the 1-based positions
1..N, only the last stored item carries the end-of-list flag, each
non-final item is answered with a request for the next sequence number,
the final item is answered with an ACCEPTED ack when the assembled list
passes validation and an INVALID ack otherwise, and afterwards the
session is complete: the cursor equals the full count
(wpSequence = wpCount = N), no further item being awaited. -/
theorem c1_upload_in_order (env : Env) (N : Nat) (mk : Nat → MissionItemMsg)
    (wc0 ws0 : Int) (h0 : 0 < N) (hN : (N : Int) ≤ env.navMaxWaypoints)
    (hmk : ∀ i, i < N → ValidUploadItem (mk i) i) :
    (handleIncoming_MISSION_COUNT env false { target_system := 1, count := N }
        ⟨wc0, ws0, fun _ => none⟩).handled = true ∧
    (handleIncoming_MISSION_COUNT env false { target_system := 1, count := N }
        ⟨wc0, ws0, fun _ => none⟩).sent = [OutMsg.missionRequest 0] ∧
    (uploadRun env N mk wc0 ws0).1.wpCount = (N : Int) ∧
    (uploadRun env N mk wc0 ws0).1.wpSequence = (N : Int) ∧
    (∀ j : Int, ((uploadRun env N mk wc0 ws0).1.mission j).isSome ↔
      (1 ≤ j ∧ j ≤ (N : Int))) ∧
    (∀ (j : Int) (w : NavWaypoint), (uploadRun env N mk wc0 ws0).1.mission j = some w →
      (w.flag = NAV_WP_FLAG_LAST ↔ j = (N : Int))) ∧
    (∀ i : Nat, i + 1 < N → (uploadRun env N mk wc0 ws0).2[i]? =
      some [OutMsg.missionRequest ((i + 1 : Nat) : Int)]) ∧
    (uploadRun env N mk wc0 ws0).2[N - 1]? =
      some [OutMsg.ack (if env.isWaypointListValid (uploadRun env N mk wc0 ws0).1.mission then
        MavMissionResult.accepted else MavMissionResult.invalid)] := by
  have hcount : handleIncoming_MISSION_COUNT env false { target_system := 1, count := N }
      ⟨wc0, ws0, fun _ => none⟩ =
      { handled := true, state := ⟨(N : Int), 0, fun _ => none⟩
        sent := [OutMsg.missionRequest 0] } := by
    unfold handleIncoming_MISSION_COUNT
    have htv : ({ target_system := 1, count := N } : MissionCountMsg).target_system =
        mavSystemId := rfl
    have hN' : (({ target_system := 1, count := N } : MissionCountMsg).count : Int) ≤
        env.navMaxWaypoints := hN
    rw [if_pos htv, if_pos hN']
  have hrun : uploadRun env N mk wc0 ws0 =
      (⟨(N : Int), (N : Int), missionUpTo env mk N N⟩,
       expectedItemOuts env (missionUpTo env mk N N) 0 N) := by
    unfold uploadRun
    rw [hcount]
    have h0' := runItems_upload env mk N hmk N 0 (by omega)
    rw [missionUpTo_zero] at h0'
    exact h0'
  refine ⟨by rw [hcount], by rw [hcount], by rw [hrun], by rw [hrun], ?_, ?_, ?_, ?_⟩
  · intro j
    rw [hrun]
    show (missionUpTo env mk N N j).isSome ↔ _
    unfold missionUpTo
    by_cases hb : 1 ≤ j ∧ j ≤ ((N : Nat) : Int)
    · rw [if_pos hb]
      simp [hb]
    · rw [if_neg hb]
      simp [hb]
  · intro j w hw
    rw [hrun] at hw
    replace hw : missionUpTo env mk N N j = some w := hw
    unfold missionUpTo at hw
    by_cases hb : 1 ≤ j ∧ j ≤ ((N : Nat) : Int)
    · rw [if_pos hb] at hw
      have hww : w = mkStoredWp env (mk (j - 1).toNat) (decide ((N : Int) ≤ j)) :=
        (Option.some.injEq _ _ ▸ hw).symm
      have hwf : w.flag = if (N : Int) ≤ j then NAV_WP_FLAG_LAST else 0 := by
        rw [hww]
        simp [mkStoredWp]
      rw [hwf]
      by_cases hjN : (N : Int) ≤ j
      · rw [if_pos hjN]
        constructor
        · intro _
          omega
        · intro _
          rfl
      · rw [if_neg hjN]
        constructor
        · intro hz
          exact absurd hz.symm (by decide)
        · intro hj
          exact absurd hjN (by omega)
    · rw [if_neg hb] at hw
      cases hw
  · intro i hi
    rw [hrun]
    show (expectedItemOuts env (missionUpTo env mk N N) 0 N)[i]? = _
    rw [expectedItemOuts_getElem env (missionUpTo env mk N N) N 0 i (by omega)]
    rw [if_pos hi]
    norm_num
  · rw [hrun]
    show (expectedItemOuts env (missionUpTo env mk N N) 0 N)[N - 1]? = _
    rw [expectedItemOuts_getElem env (missionUpTo env mk N N) N 0 (N - 1) (by omega)]
    rw [if_neg (by omega)]

/-- C1 witness: the in-order upload theorem evaluated at N = 2 with the
concrete item family, non-zero stale counters, and the all-accepting
validation oracle: both items are stored, item 0 is answered by a request
for sequence 1, and the final item by an ACCEPTED ack. -/
theorem c1_upload_in_order_witness :
    (uploadRun envDefault 2 itemMsgAt 5 7).1.wpCount = 2 ∧
    (uploadRun envDefault 2 itemMsgAt 5 7).1.wpSequence = 2 ∧
    (uploadRun envDefault 2 itemMsgAt 5 7).2[0]? = some [OutMsg.missionRequest 1] ∧
    (uploadRun envDefault 2 itemMsgAt 5 7).2[1]? =
      some [OutMsg.ack MavMissionResult.accepted] := by
  have h := c1_upload_in_order envDefault 2 itemMsgAt 5 7 (by decide) (by decide)
    (by
      intro i hi
      refine ⟨rfl, rfl, ⟨?_, Or.inl rfl⟩, Or.inl rfl⟩
      show (1 : Nat) ≠ 0
      decide)
  obtain ⟨-, -, hc, hs, -, -, hreq, hack⟩ := h
  refine ⟨hc, hs, ?_, ?_⟩
  · have h0 := hreq 0 (by decide)
    simpa using h0
  · simpa [envDefault] using hack

end MavlinkTelemetry
